import Mathlib

/-!
Verification of the letterboxd-cli browser-automation layer.

The TypeScript source is shallowly embedded: JS strings become `List Char`,
JS numbers become `ℚ`, optional/nullable values become `Option`, fallible
operations return `Except`, and browser effects are modelled by explicit
page-state records plus event traces.  Each definition follows the source
function it is named after (`src/utils.ts`, `src/browser/auth.ts`,
`src/browser/pages/film.ts`, `src/browser/pages/search.ts`,
`src/browser/pages/profile.ts`, `src/config.ts` and the retry helper).
-/

namespace LetterboxdCli

/-- Abbreviation: embedded JS strings are lists of characters. -/
abbrev Str := List Char

/-! ### Generic string helpers (JS primitives used by the source) -/

/-- Numeric value of a digit character (JS implicit digit decoding). -/
def digitVal (c : Char) : ℕ := c.toNat - 48

/-- Value of a digit list read as an integer part, most significant first. -/
def digitsVal (ds : Str) : ℚ := ds.foldl (fun a c => a * 10 + (digitVal c : ℕ)) 0

/-- Value of a digit list read as a fractional part (digits after the dot). -/
def fracVal (ds : Str) : ℚ := ds.foldr (fun c a => ((digitVal c : ℕ) + a) / 10) 0

/-- Digit-list value as a natural number (JS parseInt on a digit run). -/
def natOfDigits (ds : Str) : ℕ := ds.foldl (fun a c => a * 10 + digitVal c) 0

/-- JS `parseFloat` restricted to the strings the source feeds it
(optional digits, optional dot, optional digits): parses the leading
`\d*(\.\d*)?` portion and is NaN (`none`) when that portion has no digit. -/
def parseFloatQ (cs : Str) : Option ℚ :=
  let intPart := cs.takeWhile Char.isDigit
  let rest := cs.dropWhile Char.isDigit
  let fracPart := match rest with
    | '.' :: r => r.takeWhile Char.isDigit
    | _ => []
  if intPart.isEmpty && fracPart.isEmpty then none
  else some (digitsVal intPart + fracVal fracPart)

/-- JS `Math.round`: round half toward positive infinity. -/
def jsRound (x : ℚ) : ℤ := ⌊x + 1/2⌋

/-- JS `String.prototype.includes` (substring containment). -/
def strIncludes (sub : Str) : Str → Bool
  | [] => sub.isEmpty
  | c :: t => sub.isPrefixOf (c :: t) || strIncludes sub t

/-- JS `String.prototype.trim`: strip whitespace from both ends. -/
def trimJs (s : Str) : Str :=
  ((s.dropWhile Char.isWhitespace).reverse.dropWhile Char.isWhitespace).reverse

/-- Characters kept by `input.replace(/[^\d.]/g, '')` in `parseRating`. -/
def isNumChar (c : Char) : Bool := c.isDigit || c = '.'

/-! ### src/utils.ts -/

/-- `parseRating` (src/utils.ts:22-37): star notation first
(`starCount + (halfStar ? 0.5 : 0)` capped at 5 when at least one `★` is
present), otherwise strip every character but digits and dots, `parseFloat`,
clamp into `[0.5, 5]` and round to the nearest half via
`Math.round(clamped * 2) / 2`. -/
def parseRating (input : Str) : Option ℚ :=
  let starCount := input.countP (fun c => c = '★')
  let halfStar := input.any (fun c => c = '½')
  if starCount > 0 then
    some (min 5 ((starCount : ℚ) + if halfStar then 1/2 else 0))
  else
    match parseFloatQ (input.filter isNumChar) with
    | none => none
    | some num =>
      let clamped := min 5 (max (1/2) num)
      some ((jsRound (clamped * 2) : ℤ) / 2)

/-- `formatRating` (src/utils.ts:42-46): `'★'.repeat(Math.floor(rating))`
followed by `'½'` when `rating % 1 !== 0` (i.e. the rating is not an
integer). -/
def formatRating (rating : ℚ) : Str :=
  let fullStars := (⌊rating⌋).toNat
  List.replicate fullStars '★' ++ (if rating = (⌊rating⌋ : ℚ) then [] else ['½'])

/-! ### src/utils/retry.ts — `withRetry` -/

/-- Outcome of a `withRetry` run: the returned value, the error re-raised by
`throw e` on the last attempt, or the `throw new Error('unreachable')`
fallthrough after the loop. -/
inductive RetryOutcome (ε τ : Type) where
  | ok (v : τ)
  | raised (e : ε)
  | unreachableError
  deriving DecidableEq

/-- Trace of a `withRetry` run: how many times the operation was invoked,
the sequence of timed waits performed between attempts, and the outcome. -/
structure RetryTrace (ε τ : Type) where
  calls : ℕ
  delays : List ℕ
  outcome : RetryOutcome ε τ
  deriving DecidableEq

/-- The `for (let i = 0; i < attempts; i++)` loop of `withRetry`:
try `op i`; rethrow on the last attempt (`i === attempts - 1`), otherwise
record a `delayMs` wait and continue.  `calls`/`delays` accumulate the
trace. -/
def withRetryLoop (op : ℕ → Except ε τ) (attempts delayMs : ℕ) (i calls : ℕ)
    (delays : List ℕ) : RetryTrace ε τ :=
  if _h : i < attempts then
    match op i with
    | .ok v => ⟨calls + 1, delays, .ok v⟩
    | .error e =>
      if i = attempts - 1 then ⟨calls + 1, delays, .raised e⟩
      else withRetryLoop op attempts delayMs (i + 1) (calls + 1) (delays ++ [delayMs])
  else ⟨calls, delays, .unreachableError⟩
termination_by attempts - i

/-- `withRetry(fn, attempts = 3, delayMs = 1000)`; `op i` is the result of
the `i`-th invocation of `fn`. -/
def withRetry (op : ℕ → Except ε τ) (attempts delayMs : ℕ) : RetryTrace ε τ :=
  withRetryLoop op attempts delayMs 0 0 []

/-! ### src/browser/auth.ts -/

/-- Observable browser world for the auth flow: whether the home page shows
the `a[href="/sign-in/"]` affordance, and whether the sign-in form flow would
leave the session authenticated. -/
structure AuthWorld where
  homeHasSignInLink : Bool
  loginSucceeds : Bool

/-- Events performed by the auth functions, for stating what work a call
does. -/
inductive AuthEvent where
  | navigateHome
  | loginInvoked
  deriving DecidableEq

/-- Error raised by `ensureAuthenticated` when `login` returns false. -/
inductive AuthError where
  | loginFailed
  deriving DecidableEq

/-- `isAuthenticated` (auth.ts:13-21): the sign-in link is absent. -/
def isAuthenticated (w : AuthWorld) : Bool := !w.homeHasSignInLink

/-- `login` (auth.ts:26-56): navigate to the sign-in form, fill it, submit,
and report whether the session ended up authenticated.  Modelled as the
event it performs plus its boolean result. -/
def login (w : AuthWorld) : List AuthEvent × Bool :=
  ([.loginInvoked], w.loginSucceeds)

/-- `ensureAuthenticated` (auth.ts:61-75): navigate home, return when
`isAuthenticated`, otherwise `login` and throw if that fails. -/
def ensureAuthenticated (w : AuthWorld) : List AuthEvent × Except AuthError Unit :=
  let nav := [AuthEvent.navigateHome]
  if isAuthenticated w then (nav, .ok ())
  else
    let (ev, success) := login w
    if success then (nav ++ ev, .ok ()) else (nav ++ ev, .error .loginFailed)

/-- Two consecutive `ensureAuthenticated` calls against the same session
state (a succeeding no-op call does not change the page world). -/
def ensureAuthenticatedTwice (w : AuthWorld) : List AuthEvent × Except AuthError Unit :=
  let (ev₁, r₁) := ensureAuthenticated w
  match r₁ with
  | .ok _ =>
    let (ev₂, r₂) := ensureAuthenticated w
    (ev₁ ++ ev₂, r₂)
  | .error e => (ev₁, .error e)

/-! ### Locator resolution (Playwright `Locator.or` chains)

The source builds fallback chains as `l₁.or(l₂).or(l₃)...` and then takes
`.first()` (film.ts:40-43, 63-66; search.ts:27).  Playwright's `or` matches
every element matched by either operand, and a locator resolves its matches
in document order, so `.first()` is the document-order-first element of the
union.  A page is the document-order list of its elements, and each
strategy of a chain is a boolean query on elements. -/

/-- Elements matched by an `or`-chain of strategies: all elements matching
at least one strategy, in document order. -/
def orChainMatches (spec : List (α → Bool)) (page : List α) : List α :=
  page.filter (fun e => spec.any (fun s => s e))

/-- `.first()` on an `or`-chain (`none` when every strategy yields zero
matches, the situation the source guards with `count() === 0`). -/
def orChainFirst (spec : List (α → Bool)) (page : List α) : Option α :=
  (orChainMatches spec page).head?

/-- Modelled from the spec (§4.2 `resolve`), for comparison with
`orChainFirst`: evaluate each strategy in declared order and return the
first match of the first strategy with at least one match. -/
def resolveShortCircuit (spec : List (α → Bool)) (page : List α) : Option α :=
  match spec with
  | [] => none
  | s :: rest =>
    match page.filter s with
    | [] => resolveShortCircuit rest page
    | e :: _ => some e

/-- An on-page element as seen by the `logFilm` log-button chain
(film.ts:40-43): its accessible-role match, data attributes and class
tokens. -/
structure PageElement where
  roleLinkLogName : Bool
  dataTrackAction : Option Str
  classes : List Str
  dataJsTrigger : Option Str
  deriving DecidableEq

/-- The declared strategy order of the `logButton` chain (film.ts:40-43):
`getByRole('link', ...)`, `[data-track-action="AddThisFilm"]`,
`.add-this-film`, `[data-js-trigger="log"]`. -/
def logButtonStrategies : List (PageElement → Bool) :=
  [ (fun e => e.roleLinkLogName),
    (fun e => e.dataTrackAction == some "AddThisFilm".data),
    (fun e => e.classes.contains "add-this-film".data),
    (fun e => e.dataJsTrigger == some "log".data) ]

/-! ### src/browser/pages/film.ts — star-rating widget addressing -/

/-- The single click issued by `setRatingInDialog`:
an aria-label element addressed by the explicit rating value, a rating
input addressed by value (`value="rating"` or `value="halfStars"`), the
`.star` element at a 0-based ordinal position, or no click at all. -/
inductive RatingAction where
  | clickAria (value : ℚ)
  | clickInput (value : ℚ) (halfUnits : ℤ)
  | clickStar (index : ℤ)
  | noClick
  deriving DecidableEq

/-- The dialog's rating widget as probed by `setRatingInDialog`
(film.ts:185-221): whether the aria-label selector for a given value
matches, whether the value-addressed input selector matches, and how many
`.rating-stars .star, .rating .star` elements exist. -/
structure RatingWidgetPage where
  hasAriaFor : ℚ → Bool
  hasInputFor : ℚ → ℤ → Bool
  starCount : ℕ

/-- `setRatingInDialog` (film.ts:185-221): `halfStars = Math.round(rating*2)`;
try the aria-label selector (explicit value `rating`), then the input
selector (`value="rating"` or `value="halfStars"`), then click star number
`Math.ceil(rating) - 1` of the star widget when that index is in range. -/
def setRatingInDialog (w : RatingWidgetPage) (rating : ℚ) : RatingAction :=
  let halfStars := jsRound (rating * 2)
  if w.hasAriaFor rating then .clickAria rating
  else if w.hasInputFor rating halfStars then .clickInput rating halfStars
  else if w.starCount > 0 then
    let starIndex : ℤ := ⌈rating⌉ - 1
    if starIndex < (w.starCount : ℤ) then .clickStar starIndex else .noClick
  else .noClick

/-- The star click of `rateFilm` (film.ts:252-270): either one combined
value-addressed selector click (aria value `rating`, `data-rating="rating"`,
classes `.rated-halfStars` / `.star-ceil(rating)`), or the
`rating:set` custom-event fallback carrying `rating` itself. -/
inductive RateAction where
  | clickStarSelector (ariaValue dataValue : ℚ) (ratedUnits starNum : ℤ)
  | dispatchEventFallback (value : ℚ)
  deriving DecidableEq

/-- Whether the film page has any element matching `rateFilm`'s combined
star selector for the given rating. -/
structure RateFilmPage where
  starSelectorMatches : ℚ → ℤ → ℤ → Bool

/-- `rateFilm`'s star-selection step (film.ts:231, 252-270). -/
def rateFilmStarStep (p : RateFilmPage) (rating : ℚ) : RateAction :=
  let halfStars := jsRound (rating * 2)
  if p.starSelectorMatches rating halfStars ⌈rating⌉ then
    .clickStarSelector rating rating halfStars ⌈rating⌉
  else .dispatchEventFallback rating

/-! ### src/browser/pages/film.ts — `logFilm` control flow -/

/-- Errors `logFilm` can raise (the thrown `Error` messages and rejected
waits of film.ts:34-180). -/
inductive LogError where
  | noLogButton
  | dialogTimeout
  | dialogNotFound
  | noSaveButton
  | completionTimeout
  deriving DecidableEq

/-- Observable page behaviour during one `logFilm` run: match counts of the
button chains and whether each bounded wait resolves within its timeout. -/
structure LogFlowPage where
  logButtonCount : ℕ
  reviewLinkCount : ℕ
  dialogAppears : Bool
  dialogCount : ℕ
  saveButtonCount : ℕ
  dialogHides : Bool
  networkIdleReached : Bool
  deriving DecidableEq

/-- `logFilm` after the log/review control was clicked (film.ts:61-180):
wait for the dialog (fatal timeout), re-check its count, apply the optional
fields (each wrapped in try/catch or a count guard in the source, hence
never failing — elided), click save (fatal when absent), then wait for the
dialog to hide; on timeout of that wait, fall back to waiting for
`networkidle`, whose own timeout rejection is not caught. -/
def logFilmAfterOpen (w : LogFlowPage) : Except LogError Unit :=
  if !w.dialogAppears then .error .dialogTimeout
  else if w.dialogCount = 0 then .error .dialogNotFound
  else if w.saveButtonCount > 0 then
    if w.dialogHides then .ok ()
    else if w.networkIdleReached then .ok ()
    else .error .completionTimeout
  else .error .noSaveButton

/-- `logFilm` (film.ts:34-180): find and click the log/review control via
the primary chain or the sidebar fallback chain, then proceed in the
dialog. -/
def logFilm (w : LogFlowPage) : Except LogError Unit :=
  if w.logButtonCount > 0 then logFilmAfterOpen w
  else if w.reviewLinkCount > 0 then logFilmAfterOpen w
  else .error .noLogButton

/-! ### src/browser/pages/film.ts — toggle actions -/

/-- A toggle control as read by `toggleWatchlist`/`likeFilm`: whether the
button chain matched anything, its `class` attribute and its `aria-pressed`
attribute. -/
structure ToggleButton where
  present : Bool
  classAttr : Str
  ariaPressed : Option Str
  deriving DecidableEq

/-- Error when the button chain matches nothing. -/
inductive ToggleError where
  | buttonNotFound
  deriving DecidableEq

/-- Current watchlist state read by `toggleWatchlist` (film.ts:300-303):
`classes.includes('watchlisted') || classes.includes('-watched') ||
ariaPressed === 'true'`. -/
def isOnWatchlist (b : ToggleButton) : Bool :=
  strIncludes "watchlisted".data b.classAttr || strIncludes "-watched".data b.classAttr
    || b.ariaPressed == some "true".data

/-- `toggleWatchlist` (film.ts:283-326), reported as whether a click was
issued: click only when `(add && !isOnWatchlist) || (!add && isOnWatchlist)`. -/
def toggleWatchlistClick (b : ToggleButton) (add : Bool) : Except ToggleError Bool :=
  if b.present = false then .error .buttonNotFound
  else .ok ((add && !isOnWatchlist b) || (!add && isOnWatchlist b))

/-- Current liked state read by `likeFilm` (film.ts:347-349). -/
def isLikedState (b : ToggleButton) : Bool :=
  strIncludes "liked".data b.classAttr || b.ariaPressed == some "true".data

/-- `likeFilm` (film.ts:331-362), reported as whether a click was issued:
click only when the film is not already liked. -/
def likeFilmClick (b : ToggleButton) : Except ToggleError Bool :=
  if b.present = false then .error .buttonNotFound
  else .ok (!isLikedState b)

/-! ### Regex-shaped helpers used by the scrapers -/

/-- `href.match(/\/film\/([^/]+)/)?.[1]`: scan for `/film/` followed by at
least one non-slash character; the captured slug is the maximal non-slash
run after it.  On a failed position the scan advances one character, as the
regex engine does. -/
def slugFromHref : Str → Option Str
  | [] => none
  | c :: rest =>
    if ("/film/".data).isPrefixOf (c :: rest) then
      match ((c :: rest).drop 6).takeWhile (· != '/') with
      | [] => slugFromHref rest
      | s => some s
    else slugFromHref rest

/-- Helper for the `/([\d.]+)\s*star/i` match: after the digit/dot run,
skip whitespace and require `star` case-insensitively. -/
def lowerStarAfterWs (cs : Str) : Bool :=
  ("star".data).isPrefixOf ((cs.dropWhile Char.isWhitespace).map Char.toLower)

/-- `ariaLabel?.match(/([\d.]+)\s*star/i)` followed by
`parseFloat(match[1])` (profile.ts:107-109).  A captured run with no digit
would be NaN in JS; it is modelled as no rating. -/
def ariaStarValue : Str → Option ℚ
  | [] => none
  | c :: rest =>
    let run := (c :: rest).takeWhile isNumChar
    if run.isEmpty then ariaStarValue rest
    else if lowerStarAfterWs ((c :: rest).drop run.length) then parseFloatQ run
    else ariaStarValue rest

/-- `ratingClass?.match(/rated-(\d+)/)` followed by `parseInt(match[1])`
(profile.ts:113-115). -/
def ratedClassValue : Str → Option ℕ
  | [] => none
  | c :: rest =>
    if ("rated-".data).isPrefixOf (c :: rest) then
      match ((c :: rest).drop 6).takeWhile Char.isDigit with
      | [] => ratedClassValue rest
      | ds => some (natOfDigits ds)
    else ratedClassValue rest

/-- `yearText?.match(/\d{4}/)?.[0]`: the first run of four consecutive
digits. -/
def fourDigitMatch : Str → Option Str
  | [] => none
  | c :: rest =>
    let first4 := (c :: rest).take 4
    if first4.length = 4 && first4.all Char.isDigit then some first4
    else fourDigitMatch rest

/-- `title?.trim() || slug`: the trimmed title when it is a non-empty
string, the slug otherwise. -/
def jsTitleOr (title : Option Str) (slug : Str) : Str :=
  match title with
  | some t => if trimJs t = [] then slug else trimJs t
  | none => slug

/-- JS `a || b` on a nullable string `a` with string default `b`. -/
def jsStrOr (o : Option Str) (d : Str) : Str :=
  match o with
  | some s => if s.isEmpty then d else s
  | none => d

/-- `href.replace(/\/$/, '')`: drop one trailing slash. -/
def dropTrailingSlash (s : Str) : Str :=
  if s.getLast? = some '/' then s.dropLast else s

/-! ### src/browser/pages/profile.ts — `getDiary` -/

/-- One candidate diary row (`tr.diary-entry-row, .diary-entry`) as probed
by the `getDiary` loop.  An outer `some` means the guarding locator had at
least one match; the inner `Option` is the attribute value, which
`getAttribute` may still report as null. -/
structure DiaryRow where
  roleLinkHref : Option (Option Str)
  fallbackLinkHref : Option (Option Str)
  headingText : Option Str
  fallbackTitleText : Option Str
  dateTimeAttr : Option (Option Str)
  ratingAriaLabel : Option (Option Str)
  ratingClassAttr : Option (Option Str)
  likedPresent : Bool
  rewatchPresent : Bool
  deriving DecidableEq

/-- Scraped diary entry (profile.ts:10-17). -/
structure DiaryEntry where
  title : Str
  slug : Str
  date : Str
  rating : Option ℚ
  liked : Bool
  rewatch : Bool
  deriving DecidableEq

/-- Body of the `getDiary` loop (profile.ts:61-138) for one row: pick the
film href (role-based link first, CSS fallback second), extract the slug —
a row without one is skipped — then assemble title, datetime, rating
(aria-label branch, else `rated-N` class branch), liked and rewatch. -/
def diaryEntryOfRow (row : DiaryRow) : Option DiaryEntry :=
  let href : Option Str :=
    match row.roleLinkHref with
    | some a => a
    | none =>
      match row.fallbackLinkHref with
      | some a => a
      | none => none
  match href.bind slugFromHref with
  | none => none
  | some slug =>
    let title : Option Str :=
      match row.headingText with
      | some t => some t
      | none => row.fallbackTitleText
    let date : Str :=
      match row.dateTimeAttr with
      | some (some d) => d
      | some none => []
      | none => []
    let rating : Option ℚ :=
      match row.ratingAriaLabel with
      | some (some aria) => ariaStarValue aria
      | some none => none
      | none =>
        match row.ratingClassAttr with
        | some (some cls) => (ratedClassValue cls).map (fun n => (n : ℚ) / 2)
        | some none => none
        | none => none
    some { title := jsTitleOr title slug, slug := slug, date := date,
           rating := rating, liked := row.likedPresent,
           rewatch := row.rewatchPresent }

/-- `getDiary` (profile.ts:37-142): iterate the candidate rows up to the
hard cap of 20 (`i < Math.min(rowCount, 20)`), in document order, skipping
rows without a valid slug. -/
def getDiary (rows : List DiaryRow) : List DiaryEntry :=
  (rows.take 20).filterMap diaryEntryOfRow

/-! ### src/browser/pages/search.ts — `searchFilms` -/

/-- One candidate `li.search-result` item as probed by the `searchFilms`
loop. -/
structure SearchItem where
  posterHref : Option (Option Str)
  titleLinkHref : Option (Option Str)
  roleLinkHref : Option (Option Str)
  headingText : Option Str
  titleLinkText : Option Str
  metadataText : Option Str
  directorText : Option Str
  deriving DecidableEq

/-- Scraped search result (search.ts:10-16). -/
structure SearchResult where
  title : Str
  year : Option Str
  slug : Str
  url : Str
  director : Option Str
  deriving DecidableEq

/-- Body of the `searchFilms` loop (search.ts:38-97) for one item: pick the
href (poster link, then title link, then role-based link), require it to
start with `/film/` — otherwise the item is skipped — and assemble slug,
title, year (first four-digit run of the metadata text), url and director. -/
def searchResultOfItem (item : SearchItem) : Option SearchResult :=
  let href : Option Str :=
    match item.posterHref with
    | some a => a
    | none =>
      match item.titleLinkHref with
      | some a => a
      | none =>
        match item.roleLinkHref with
        | some a => a
        | none => none
  match href with
  | none => none
  | some h =>
    if ("/film/".data).isPrefixOf h then
      let slug := dropTrailingSlash (h.drop 6)
      let title : Option Str :=
        match item.headingText with
        | some t => some t
        | none => item.titleLinkText
      some { title := jsTitleOr title slug,
             year := item.metadataText.bind fourDigitMatch,
             slug := slug,
             url := "https://letterboxd.com/film/".data ++ slug ++ "/".data,
             director := item.directorText.map trimJs }
    else none

/-- `searchFilms` (search.ts:21-101): iterate the result items up to the
hard cap of 10 (`i < Math.min(itemCount, 10)`), in document order, skipping
items without a valid film link. -/
def searchFilms (items : List SearchItem) : List SearchResult :=
  (items.take 10).filterMap searchResultOfItem

/-! ### src/browser/pages/profile.ts — `getWatchlist` -/

/-- One candidate `li.poster-container, .film-poster` element as probed by
the `getWatchlist` loop. -/
structure PosterItem where
  linkPresent : Bool
  linkHref : Option Str
  imgAlt : Option (Option Str)
  dataFilmName : Option Str
  deriving DecidableEq

/-- Scraped watchlist item; the loop only ever fills title and slug
(profile.ts:193-196). -/
structure WatchlistItem where
  title : Str
  slug : Str
  deriving DecidableEq

/-- Body of the `getWatchlist` loop (profile.ts:165-200) for one poster:
skip when no link matched, extract the slug from the href — skipped when
absent — and take the title from the img alt text, falling back to
`data-film-name` and then the slug. -/
def watchItemOfPoster (p : PosterItem) : Option WatchlistItem :=
  if p.linkPresent = false then none
  else
    match p.linkHref.bind slugFromHref with
    | none => none
    | some slug =>
      let title0 : Option Str :=
        match p.imgAlt with
        | some a => a
        | none => none
      let title1 : Str :=
        match title0 with
        | some t => if t.isEmpty then jsStrOr p.dataFilmName slug else t
        | none => jsStrOr p.dataFilmName slug
      some { title := jsTitleOr (some title1) slug, slug := slug }

/-- `getWatchlist` (profile.ts:147-204): iterate the posters up to the hard
cap of 50 (`i < Math.min(posterCount, 50)`), in document order, skipping
posters without a valid slug. -/
def getWatchlist (posters : List PosterItem) : List WatchlistItem :=
  (posters.take 50).filterMap watchItemOfPoster

/-! ### src/config.ts -/

/-- The `Config` interface (config.ts:12-15). -/
structure Config where
  username : Option String
  password : Option String
  deriving DecidableEq

/-- `JSON.stringify` of a config object: one key/value pair per defined
property, in declaration order; properties holding `undefined` are
omitted. -/
def serializeConfig (c : Config) : List (String × String) :=
  (match c.username with | some u => [("username", u)] | none => []) ++
  (match c.password with | some p => [("password", p)] | none => [])

/-- `saveConfig` (config.ts:63-69): destructure the password out
(`const { password: _password, ...safeConfig } = config`) and write the
JSON serialization of the rest; the returned list is the file content. -/
def saveConfig (c : Config) : List (String × String) :=
  serializeConfig { username := c.username, password := none }

/-- JS truthiness of a nullable string: defined and non-empty. -/
def truthy : Option String → Bool
  | none => false
  | some s => s != ""

/-- Effects of one `migratePassword` run: keychain `setPassword` calls,
the new config-file content when one was written, and the returned
boolean. -/
structure MigrateResult where
  keychainWrites : List (String × String)
  newFile : Option (List (String × String))
  migrated : Bool
  deriving DecidableEq

/-- `migratePassword` (config.ts:95-105): when the loaded config has a
(truthy) username and password, store the password in the keychain and
rewrite the file via `saveConfig({ username: config.username })`; otherwise
do nothing and return false. -/
def migratePassword (c : Config) : MigrateResult :=
  match c.username, c.password with
  | some u, some p =>
    if u != "" && p != "" then
      { keychainWrites := [(u, p)],
        newFile := some (saveConfig { username := some u, password := none }),
        migrated := true }
    else { keychainWrites := [], newFile := none, migrated := false }
  | _, _ => { keychainWrites := [], newFile := none, migrated := false }

/-! ### Concrete fixtures used to instantiate the theorems -/

/-- A decoy element that only the last `logButton` strategy
(`[data-js-trigger="log"]`) matches. -/
def decoyElement : PageElement :=
  { roleLinkLogName := false, dataTrackAction := none, classes := [],
    dataJsTrigger := some "log".data }

/-- An element that the first (role-based) `logButton` strategy matches. -/
def roleElement : PageElement :=
  { roleLinkLogName := true, dataTrackAction := none, classes := [],
    dataJsTrigger := none }

/-- An element no `logButton` strategy matches. -/
def plainElement : PageElement :=
  { roleLinkLogName := false, dataTrackAction := none, classes := [],
    dataJsTrigger := none }

/-- A dialog whose rating widget exposes only the ordinal star elements:
no aria-label or value-addressed input matches, ten `.star` elements. -/
def bareStarWidget : RatingWidgetPage :=
  { hasAriaFor := fun _ => false, hasInputFor := fun _ _ => false,
    starCount := 10 }

/-- A well-formed diary row: a role-based film link with a valid href and
nothing else. -/
def wDiaryRow : DiaryRow :=
  { roleLinkHref := some (some "/film/a/".data), fallbackLinkHref := none,
    headingText := none, fallbackTitleText := none, dateTimeAttr := none,
    ratingAriaLabel := none, ratingClassAttr := none, likedPresent := false,
    rewatchPresent := false }

/-- A legacy config file holding a plaintext password but no username. -/
def legacyPasswordOnly : Config := { username := none, password := some "hunter2" }

/-!
## Theorems
-/

/-- C3: `ensureAuthenticated` is idempotent: whenever the authentication
check reports the session authenticated (the sign-in affordance is absent),
it returns successfully without invoking `login`, and a second consecutive
call likewise performs only the navigation/check work and no login work. -/
theorem ensureAuthenticated_idempotent (w : AuthWorld)
    (h : isAuthenticated w = true) :
    ensureAuthenticated w = ([.navigateHome], .ok ()) ∧
    AuthEvent.loginInvoked ∉ (ensureAuthenticated w).1 ∧
    ensureAuthenticatedTwice w = ([.navigateHome, .navigateHome], .ok ()) ∧
    AuthEvent.loginInvoked ∉ (ensureAuthenticatedTwice w).1 := by
  refine ⟨?_, ?_, ?_, ?_⟩ <;> simp [ensureAuthenticated, ensureAuthenticatedTwice, h]

/-- Witness for C3 at a world whose home page has no sign-in link. -/
theorem ensureAuthenticated_idempotent_witness :
    ensureAuthenticated ⟨false, false⟩ = ([.navigateHome], .ok ()) ∧
    AuthEvent.loginInvoked ∉ (ensureAuthenticated ⟨false, false⟩).1 ∧
    ensureAuthenticatedTwice ⟨false, false⟩ = ([.navigateHome, .navigateHome], .ok ()) ∧
    AuthEvent.loginInvoked ∉ (ensureAuthenticatedTwice ⟨false, false⟩).1 :=
  ensureAuthenticated_idempotent ⟨false, false⟩ rfl

/-- C9: each toggle action clicks its control exactly when the state read
from the page (watchlisted/liked class or aria-pressed attribute) differs
from the desired state, and issues no click when they already agree. -/
theorem toggle_click_iff_state_differs (b bl : ToggleButton) (add : Bool)
    (hb : b.present = true) (hbl : bl.present = true) :
    toggleWatchlistClick b add = .ok (isOnWatchlist b != add) ∧
    (isOnWatchlist b = add → toggleWatchlistClick b add = .ok false) ∧
    likeFilmClick bl = .ok (!isLikedState bl) ∧
    (isLikedState bl = true → likeFilmClick bl = .ok false) := by
  refine ⟨?_, ?_, ?_, ?_⟩
  · cases h1 : isOnWatchlist b <;> cases add <;>
      simp [toggleWatchlistClick, hb, h1]
  · intro h1
    cases add <;> simp [toggleWatchlistClick, hb, h1]
  · simp [likeFilmClick, hbl]
  · intro h1
    simp [likeFilmClick, hbl, h1]

/-- Witness for C9 at an already-watchlisted button and a not-yet-liked
button. -/
theorem toggle_click_iff_state_differs_witness :
    toggleWatchlistClick ⟨true, "film-watch-link-target watchlisted".data, none⟩ true =
      .ok (isOnWatchlist ⟨true, "film-watch-link-target watchlisted".data, none⟩ != true) ∧
    (isOnWatchlist ⟨true, "film-watch-link-target watchlisted".data, none⟩ = true →
      toggleWatchlistClick ⟨true, "film-watch-link-target watchlisted".data, none⟩ true = .ok false) ∧
    likeFilmClick ⟨true, "like-button".data, none⟩ =
      .ok (!isLikedState ⟨true, "like-button".data, none⟩) ∧
    (isLikedState ⟨true, "like-button".data, none⟩ = true →
      likeFilmClick ⟨true, "like-button".data, none⟩ = .ok false) :=
  toggle_click_iff_state_differs _ _ true rfl rfl

/-- C6 counterexample: a log action that resolves and clicks the submit
control but then times out both waiting for the dialog to disappear and
waiting for the page-idle fallback raises an error instead of returning
normally, so the completion-signal timeout is not unconditionally
non-fatal. -/
theorem logFilm_completion_timeout_cex :
    (LogFlowPage.mk 1 0 true 1 1 false false).saveButtonCount > 0 ∧
    logFilm (LogFlowPage.mk 1 0 true 1 1 false false) = .error .completionTimeout := by
  constructor
  · decide
  · rfl

/-- C6 as amended: once the submit control is resolved and clicked, a
timeout of the dialog-disappearance wait is non-fatal provided the
page-idle fallback condition is met within its own timeout: `logFilm`
returns normally whenever the dialog hides or the page reaches network
idle; only when both time out does the error propagate. -/
theorem logFilm_completion_nonfatal (w : LogFlowPage)
    (hopen : w.logButtonCount > 0 ∨ w.reviewLinkCount > 0)
    (hdlg : w.dialogAppears = true) (hcnt : w.dialogCount ≠ 0)
    (hsave : w.saveButtonCount > 0)
    (hdone : w.dialogHides = true ∨ w.networkIdleReached = true) :
    logFilm w = .ok () := by
  have hsave' : ¬w.saveButtonCount = 0 := by omega
  have hafter : logFilmAfterOpen w = .ok () := by
    rcases hdone with h | h <;>
      [skip; cases hdh : w.dialogHides] <;>
      simp_all [logFilmAfterOpen]
  rcases hopen with h | h <;> simp [logFilm, h, hafter]

/-- Witness for C6 at a run where the dialog-hidden wait times out but the
network-idle fallback succeeds. -/
theorem logFilm_completion_nonfatal_witness :
    logFilm (LogFlowPage.mk 1 0 true 1 1 false true) = .ok () :=
  logFilm_completion_nonfatal _ (Or.inl (by decide)) rfl (by decide) (by decide)
    (Or.inr rfl)

/-- C10 counterexample: `migratePassword` on a config that holds a legacy
plaintext password but no username performs no migration and writes no new
file, so the plaintext password remains in the serialized config file. -/
theorem migratePassword_no_username_cex :
    migratePassword legacyPasswordOnly = ⟨[], none, false⟩ ∧
    ("password", "hunter2") ∈ serializeConfig legacyPasswordOnly := by
  constructor
  · rfl
  · simp [serializeConfig, legacyPasswordOnly]

/-- C10 as amended: `saveConfig` never writes a `password` key, and
`migratePassword` rewrites the file without the password whenever the
config has both a (truthy) username and password; a config with a password
but no username is left untouched. -/
theorem saveConfig_strips_password (c : Config)
    (hu : truthy c.username = true) (hp : truthy c.password = true) :
    (∀ c' : Config, ∀ kv ∈ saveConfig c', kv.1 ≠ "password") ∧
    ∃ f, (migratePassword c).newFile = some f ∧
      (migratePassword c).migrated = true ∧ ∀ kv ∈ f, kv.1 ≠ "password" := by
  have hsafe : ∀ c' : Config, ∀ kv ∈ saveConfig c', kv.1 ≠ "password" := by
    intro c' kv hkv
    cases hcu : c'.username <;>
      simp [saveConfig, serializeConfig, hcu] at hkv
    rw [hkv]
    simp
  refine ⟨hsafe, ?_⟩
  rcases hcu : c.username with _ | u
  · rw [hcu] at hu; simp [truthy] at hu
  rcases hcp : c.password with _ | p
  · rw [hcp] at hp; simp [truthy] at hp
  rw [hcu] at hu
  rw [hcp] at hp
  refine ⟨saveConfig { username := some u, password := none }, ?_, ?_, ?_⟩
  · simp [migratePassword, hcu, hcp, truthy] at hu hp ⊢
    simp [hu, hp]
  · simp [migratePassword, hcu, hcp, truthy] at hu hp ⊢
    simp [hu, hp]
  · exact hsafe { username := some u, password := none }

/-- Witness for C10 at a config holding both a username and a legacy
password. -/
theorem saveConfig_strips_password_witness :
    (∀ c' : Config, ∀ kv ∈ saveConfig c', kv.1 ≠ "password") ∧
    ∃ f, (migratePassword ⟨some "alice", some "pw"⟩).newFile = some f ∧
      (migratePassword ⟨some "alice", some "pw"⟩).migrated = true ∧
      ∀ kv ∈ f, kv.1 ≠ "password" :=
  saveConfig_strips_password ⟨some "alice", some "pw"⟩ (by decide) (by decide)

/-- C1 counterexample: on a page where a decoy element matched only by the
last strategy of the `logButton` chain precedes the element matched by the
first strategy, the `or`-chain resolution returns the decoy, even though
the first strategy has a match — the chain is a document-order union, not a
short-circuit over strategies (which would return the role element). -/
theorem orChain_not_short_circuit_cex :
    orChainFirst logButtonStrategies [decoyElement, roleElement] = some decoyElement ∧
    resolveShortCircuit logButtonStrategies [decoyElement, roleElement] = some roleElement ∧
    logButtonStrategies.head?.map (fun s => s decoyElement) = some false ∧
    logButtonStrategies.head?.map (fun s => s roleElement) = some true := by
  refine ⟨?_, ?_, ?_, ?_⟩ <;> decide

/-- C1 as amended: an `or`-chain with `.first()` resolves to the first
element in document order matched by the union of all strategies; an
element matched only by a later strategy is returned whenever it precedes
every match of the earlier strategies in document order. -/
theorem orChainFirst_doc_order_union (spec : List (α → Bool)) (pre : List α)
    (e : α) (post : List α)
    (hpre : ∀ x ∈ pre, (spec.any fun s => s x) = false)
    (he : (spec.any fun s => s e) = true) :
    orChainFirst spec (pre ++ e :: post) = some e := by
  unfold orChainFirst orChainMatches
  rw [List.filter_append, List.filter_eq_nil_iff.mpr (by simpa using hpre)]
  simp [List.filter_cons, he]

/-- Witness for C1 on the `logButton` chain: an unmatched element, then the
decoy matched only by the last strategy. -/
theorem orChainFirst_doc_order_union_witness :
    orChainFirst logButtonStrategies [plainElement, decoyElement] = some decoyElement :=
  orChainFirst_doc_order_union logButtonStrategies [plainElement] decoyElement []
    (by decide) (by decide)

/-- C2 counterexample: for rating 3.5 on a widget addressed only by ordinal
star position, `setRatingInDialog` clicks star index `ceil(3.5) - 1 = 3`
(the 4th star element), not the `round(3.5 * 2) = 7`-th half-star position
(under either a 1-based or 0-based reading of the claimed position). -/
theorem setRating_ordinal_cex :
    setRatingInDialog bareStarWidget (7/2) = .clickStar 3 ∧
    jsRound ((7:ℚ)/2 * 2) = 7 ∧
    setRatingInDialog bareStarWidget (7/2) ≠ .clickStar (jsRound ((7:ℚ)/2 * 2)) ∧
    setRatingInDialog bareStarWidget (7/2) ≠ .clickStar (jsRound ((7:ℚ)/2 * 2) - 1) := by
  have hc : ⌈(7:ℚ)/2⌉ = 4 := by norm_num [Int.ceil_eq_iff]
  have hj : jsRound ((7:ℚ)/2 * 2) = 7 := by norm_num [jsRound]
  have hmain : setRatingInDialog bareStarWidget (7/2) = .clickStar 3 := by
    simp [setRatingInDialog, bareStarWidget, hc]
  exact ⟨hmain, hj, by rw [hmain, hj]; decide, by rw [hmain, hj]; decide⟩

/-- C2 as amended: a widget addressed by explicit value receives the rating
`r` directly (aria-label path in the dialog, combined value-addressed
selector in `rateFilm`, whose class selectors carry `round(r*2)` half-star
units and the `ceil(r)` star number); a widget addressed by ordinal star
position is clicked at the 0-based full-star index `ceil(r) - 1`, not at
`round(r*2)` half-star units. -/
theorem setRating_addressing (w : RatingWidgetPage) (r : ℚ)
    (hna : w.hasAriaFor r = false)
    (hni : w.hasInputFor r (jsRound (r * 2)) = false)
    (hs : 0 < w.starCount) (hidx : ⌈r⌉ - 1 < (w.starCount : ℤ)) :
    (∀ w' : RatingWidgetPage, w'.hasAriaFor r = true →
      setRatingInDialog w' r = .clickAria r) ∧
    setRatingInDialog w r = .clickStar (⌈r⌉ - 1) ∧
    (∀ p : RateFilmPage, p.starSelectorMatches r (jsRound (r * 2)) ⌈r⌉ = true →
      rateFilmStarStep p r = .clickStarSelector r r (jsRound (r * 2)) ⌈r⌉) := by
  refine ⟨?_, ?_, ?_⟩
  · intro w' hw'
    simp [setRatingInDialog, hw']
  · simp [setRatingInDialog, hna, hni, Nat.pos_iff_ne_zero.mp hs, hidx]
  · intro p hp
    simp [rateFilmStarStep, hp]

/-- Witness for C2 at rating 3.5 on the ordinal-only widget. -/
theorem setRating_addressing_witness :
    (∀ w' : RatingWidgetPage, w'.hasAriaFor (7/2) = true →
      setRatingInDialog w' (7/2) = .clickAria (7/2)) ∧
    setRatingInDialog bareStarWidget (7/2) = .clickStar (⌈(7:ℚ)/2⌉ - 1) ∧
    (∀ p : RateFilmPage,
      p.starSelectorMatches (7/2) (jsRound ((7:ℚ)/2 * 2)) ⌈(7:ℚ)/2⌉ = true →
      rateFilmStarStep p (7/2) =
        .clickStarSelector (7/2) (7/2) (jsRound ((7:ℚ)/2 * 2)) ⌈(7:ℚ)/2⌉) :=
  setRating_addressing bareStarWidget (7/2) rfl rfl (by decide)
    (by rw [show ⌈(7:ℚ)/2⌉ = 4 from by norm_num [Int.ceil_eq_iff]]
        norm_num [bareStarWidget])

/-- Inductive step for the retry loop: starting from loop index `i` with
`attempts - i` iterations left, an always-failing operation is called once
per remaining iteration, a delay is recorded between consecutive attempts,
and the loop ends by rethrowing the error of the last attempt. -/
theorem withRetryLoop_allFail (errs : ℕ → ε) (attempts d : ℕ) :
    ∀ n i calls delays, attempts - i = n + 1 →
    withRetryLoop (τ := τ) (fun j => .error (errs j)) attempts d i calls delays =
      ⟨calls + (n + 1), delays ++ List.replicate n d, .raised (errs (attempts - 1))⟩ := by
  intro n
  induction n with
  | zero =>
    intro i calls delays h
    have hi : i < attempts := by omega
    have hlast : i = attempts - 1 := by omega
    rw [withRetryLoop]
    simp [hi, hlast]
    omega
  | succ n ih =>
    intro i calls delays h
    have hi : i < attempts := by omega
    have hne : ¬i = attempts - 1 := by omega
    rw [withRetryLoop]
    simp only [hi, dite_true, dif_pos, hne, if_false, ite_false]
    rw [ih (i + 1) (calls + 1) (delays ++ [d]) (by omega)]
    simp [List.append_assoc, List.replicate_succ]
    omega

/-- C4: an operation that fails on every invocation is invoked exactly
`attempts` times by `withRetry`, a fixed `delayMs` wait is performed
between consecutive attempts (so `attempts - 1` equal delays, no backoff),
and the final attempt's error is re-raised unchanged. -/
theorem withRetry_allFail (errs : ℕ → ε) (attempts d : ℕ) (h : 1 ≤ attempts) :
    withRetry (τ := τ) (fun j => .error (errs j)) attempts d =
      ⟨attempts, List.replicate (attempts - 1) d, .raised (errs (attempts - 1))⟩ := by
  unfold withRetry
  rw [withRetryLoop_allFail errs attempts d (attempts - 1) 0 0 [] (by omega)]
  simp
  omega

/-- Witness for C4 with three attempts, each failing with its index as the
error. -/
theorem withRetry_allFail_witness :
    withRetry (τ := Unit) (fun j => .error j) 3 7 =
      ⟨3, List.replicate 2 7, .raised 2⟩ := by
  rw [withRetry_allFail (fun j => j) 3 7 (by decide)]

/-- A filterMap whose function succeeds on every element produces exactly
the mapped values, in order. -/
theorem filterMap_eq_map_of_isSome (f : α → Option β) :
    ∀ l : List α, (∀ a ∈ l, (f a).isSome) →
      (l.filterMap f).map some = l.map f := by
  intro l
  induction l with
  | nil => intro _; rfl
  | cons a t ih =>
    intro h
    rcases hfa : f a with _ | b
    · exact absurd (h a (List.mem_cons_self a t)) (by simp [hfa])
    · simp only [List.filterMap_cons, hfa, List.map_cons]
      rw [ih (fun x hx => h x (List.mem_cons_of_mem a hx))]

/-- C5: each scraper listing is capped at its fixed per-type maximum
(search 10, diary 20, watchlist 50); the diary result is computed from the
first 20 rows only (rows beyond the cap are never inspected) and keeps
document order; and a diary page of 25 rows that all carry a valid slug
yields exactly the entries of its first 20 rows, in order. -/
theorem scraper_caps (sitems : List SearchItem) (rows : List DiaryRow)
    (posters : List PosterItem) :
    (searchFilms sitems).length ≤ 10 ∧
    (getDiary rows).length ≤ 20 ∧
    (getWatchlist posters).length ≤ 50 ∧
    getDiary rows = getDiary (rows.take 20) ∧
    (getDiary rows).Sublist (rows.filterMap diaryEntryOfRow) ∧
    (rows.length = 25 → (∀ r ∈ rows, (diaryEntryOfRow r).isSome) →
      (getDiary rows).map some = (rows.take 20).map diaryEntryOfRow ∧
      (getDiary rows).length = 20) := by
  refine ⟨?_, ?_, ?_, ?_, ?_, ?_⟩
  · exact le_trans (List.length_filterMap_le _ _) (List.length_take_le _ _)
  · exact le_trans (List.length_filterMap_le _ _) (List.length_take_le _ _)
  · exact le_trans (List.length_filterMap_le _ _) (List.length_take_le _ _)
  · unfold getDiary
    rw [List.take_take]
    norm_num
  · exact List.Sublist.filterMap _ (List.take_sublist 20 rows)
  · intro h25 hval
    have hval20 : ∀ r ∈ rows.take 20, (diaryEntryOfRow r).isSome :=
      fun r hr => hval r (List.mem_of_mem_take hr)
    have hmap := filterMap_eq_map_of_isSome diaryEntryOfRow (rows.take 20) hval20
    refine ⟨hmap, ?_⟩
    have := congrArg List.length hmap
    simp only [List.length_map] at this
    rw [getDiary, this, List.length_take, h25]
    norm_num

/-- Witness for C5 at a diary page of 25 identical well-formed rows. -/
theorem scraper_caps_witness :
    (getDiary (List.replicate 25 wDiaryRow)).map some =
      (List.replicate 25 wDiaryRow |>.take 20).map diaryEntryOfRow ∧
    (getDiary (List.replicate 25 wDiaryRow)).length = 20 ∧
    (searchFilms []).length ≤ 10 ∧ (getWatchlist []).length ≤ 50 := by
  have h := scraper_caps [] (List.replicate 25 wDiaryRow) []
  have hs := h.2.2.2.2.2 (by simp)
    (fun r hr => by rw [List.eq_of_mem_replicate hr]; decide)
  exact ⟨hs.1, hs.2, h.1, h.2.2.1⟩

/-- The star count of a pure-star string. -/
theorem countP_star_replicate (n : ℕ) :
    (List.replicate n '★').countP (fun c => c = '★') = n := by
  simp [List.countP_replicate]

/-- `formatRating` on a whole star value. -/
theorem formatRating_nat (k : ℕ) :
    formatRating (k : ℚ) = List.replicate k '★' := by
  unfold formatRating
  rw [Int.floor_natCast]
  simp

/-- `formatRating` on a half-star value. -/
theorem formatRating_half (k : ℕ) :
    formatRating ((k : ℚ) + 1/2) = List.replicate k '★' ++ ['½'] := by
  have hf : ⌊(k : ℚ) + 1/2⌋ = (k : ℤ) := by
    rw [Int.floor_eq_iff]
    push_cast
    constructor <;> linarith
  unfold formatRating
  rw [hf]
  have hne : ¬((k : ℚ) + 1/2 = ((k : ℤ) : ℚ)) := by
    push_cast
    intro hc
    linarith
  simp [hne]

/-- `parseRating` on a pure-star string. -/
theorem parseRating_stars (k : ℕ) (hk1 : 1 ≤ k) :
    parseRating (List.replicate k '★') = some (min 5 (k : ℚ)) := by
  unfold parseRating
  rw [countP_star_replicate]
  have hany : (List.replicate k '★').any (fun c => c = '½') = false := by
    simp [List.any_eq_true, List.mem_replicate]
  have hpos : 0 < k := hk1
  rw [hany]
  simp [hpos]

/-- `parseRating` on a star string with a trailing half star. -/
theorem parseRating_stars_half (k : ℕ) (hk1 : 1 ≤ k) :
    parseRating (List.replicate k '★' ++ ['½']) = some (min 5 ((k : ℚ) + 1/2)) := by
  unfold parseRating
  have h1 : List.countP (fun c => decide (c = '★')) ['½'] = 0 := by decide
  have hcount : (List.replicate k '★' ++ ['½']).countP (fun c => c = '★') = k := by
    rw [List.countP_append, countP_star_replicate, h1]
    omega
  have hany : (List.replicate k '★' ++ ['½']).any (fun c => c = '½') = true := by
    simp
  have hpos : 0 < k := hk1
  rw [hcount, hany]
  simp [hpos]

/-- C7 counterexample: the canonical half-star string for rating 0.5 is
`"½"`, which `parseRating` cannot read back (the star branch requires at
least one `★` and the numeric branch strips the `½` and sees no digits), so
the round trip fails at 0.5. -/
theorem formatRating_roundtrip_cex :
    formatRating (1/2) = ['½'] ∧ parseRating (formatRating (1/2)) = none := by
  have hf : formatRating (1/2 : ℚ) = ['½'] := by
    unfold formatRating
    rw [show ⌊(1:ℚ)/2⌋ = 0 from by norm_num]
    norm_num
  refine ⟨hf, ?_⟩
  rw [hf]
  decide

/-- C7 as amended: the round-trip law holds for every canonical half-star
string of a rating in `{1.0, 1.5, …, 5.0}` — `parseRating` reads the
string back to its rating and `formatRating` reproduces the string — while
`formatRating 0.5 = "½"` is not parseable (see the counterexample). -/
theorem formatRating_parseRating_roundtrip (r : ℚ)
    (h : (∃ k : ℕ, 1 ≤ k ∧ k ≤ 5 ∧ r = k) ∨
         (∃ k : ℕ, 1 ≤ k ∧ k ≤ 4 ∧ r = k + 1/2)) :
    parseRating (formatRating r) = some r ∧
    (parseRating (formatRating r)).map formatRating = some (formatRating r) := by
  have main : parseRating (formatRating r) = some r := by
    rcases h with ⟨k, hk1, hk5, rfl⟩ | ⟨k, hk1, hk4, rfl⟩
    · rw [formatRating_nat, parseRating_stars k hk1]
      congr 1
      exact min_eq_right (by exact_mod_cast hk5)
    · rw [formatRating_half, parseRating_stars_half k hk1]
      congr 1
      apply min_eq_right
      have : (k : ℚ) ≤ 4 := by exact_mod_cast hk4
      linarith
  exact ⟨main, by rw [main]; rfl⟩

/-- Witness for C7 at rating 3.5 (canonical string `"★★★½"`). -/
theorem formatRating_parseRating_roundtrip_witness :
    parseRating (formatRating (7/2)) = some (7/2) ∧
    (parseRating (formatRating (7/2))).map formatRating =
      some (formatRating (7/2)) :=
  formatRating_parseRating_roundtrip (7/2)
    (Or.inr ⟨3, by norm_num, by norm_num, by norm_num⟩)

/-- C8: on a star-free input whose digits-and-dots portion parses to the
value `x`, `parseRating` clamps to 0.5 below 0.5, clamps to 5 above 5, and
otherwise returns a half-step multiple within 0.25 of `x` (nearest-half
rounding). -/
theorem parseRating_numeric_clamps (input : Str) (x : ℚ)
    (hstars : input.countP (fun c => c = '★') = 0)
    (hnum : parseFloatQ (input.filter isNumChar) = some x) :
    (x < 1/2 → parseRating input = some (1/2)) ∧
    (5 < x → parseRating input = some 5) ∧
    (1/2 ≤ x → x ≤ 5 →
      ∃ v : ℚ, parseRating input = some v ∧
        (∃ k : ℤ, v = (k : ℚ) / 2) ∧ |v - x| ≤ 1/4) := by
  have hbranch : parseRating input =
      some (((jsRound (min 5 (max (1/2) x) * 2) : ℤ) : ℚ) / 2) := by
    simp [parseRating, hstars, hnum]
  refine ⟨?_, ?_, ?_⟩
  · intro hx
    rw [hbranch, max_eq_left hx.le, show min (5:ℚ) (1/2) = 1/2 from by norm_num]
    norm_num [jsRound]
  · intro hx
    rw [hbranch, max_eq_right (by linarith), min_eq_left hx.le]
    norm_num [jsRound]
  · intro hx1 hx2
    refine ⟨((jsRound (x * 2) : ℤ) : ℚ) / 2,
      by rw [hbranch, max_eq_right hx1, min_eq_right hx2],
      ⟨jsRound (x * 2), rfl⟩, ?_⟩
    have hle := Int.floor_le (x * 2 + 1/2)
    have hgt := Int.lt_floor_add_one (x * 2 + 1/2)
    rw [abs_le]
    unfold jsRound
    constructor <;> linarith

/-- Witness for C8 at the numeric input `"3.7"` (value 3.7, rounded to
3.5). -/
theorem parseRating_numeric_clamps_witness :
    ∃ v : ℚ, parseRating "3.7".data = some v ∧
      (∃ k : ℤ, v = (k : ℚ) / 2) ∧ |v - 37/10| ≤ 1/4 :=
  (parseRating_numeric_clamps "3.7".data (37/10) (by decide)
    (by simp [parseFloatQ, digitsVal, fracVal, digitVal, isNumChar]
        norm_num)).2.2 (by norm_num) (by norm_num)

end LetterboxdCli
